import Mathlib

/-!
Shallow embedding of the lifecycle and health-supervision subsystem of the
medical-rep service: configuration (`configs` package), the `App` lifecycle
(`New`, `Run`, `Shutdown`), the probe HTTP handlers, and `NewServer`.
External collaborators (database, Redis, tableflip upgrader, go-sundheit
registry) are modelled by environments recording the outcome of each call
the code makes to them.
-/

namespace MedicalRep

/-! ## Configuration (configs package) -/

/-- Embeds `DatabaseConfig` from the configs package. `ConnMaxLifetime` is a
duration in nanoseconds. -/
structure DatabaseConfig where
  Driver : String
  Host : String
  Port : Nat
  Database : String
  Username : String
  Password : String
  SSLMode : String
  MaxOpenConns : Nat
  MaxIdleConns : Nat
  ConnMaxLifetime : Nat
  MigrationsPath : String
  deriving Repr, DecidableEq

/-- Embeds `HealthConfig` from the configs package. Durations in nanoseconds. -/
structure HealthConfig where
  Enabled : Bool
  CheckInterval : Nat
  Timeout : Nat
  DatabaseCheck : Bool
  RedisCheck : Bool
  ExternalChecks : List String
  deriving Repr, DecidableEq

/-- The slice of `Config` the verified claims depend on. -/
structure Config where
  Database : DatabaseConfig
  Health : HealthConfig
  deriving Repr, DecidableEq

/-- Embeds `Config.GetConnectionString`: a switch on `c.Database.Driver` with
cases for postgres and mysql and an empty-string default. The format strings
are spelled out field by field. -/
def Config.GetConnectionString (c : Config) : String :=
  match c.Database.Driver with
  | "postgres" =>
      "host=" ++ c.Database.Host ++ " port=" ++ toString c.Database.Port ++
      " user=" ++ c.Database.Username ++ " password=" ++ c.Database.Password ++
      " dbname=" ++ c.Database.Database ++ " sslmode=" ++ c.Database.SSLMode
  | "mysql" =>
      c.Database.Username ++ ":" ++ c.Database.Password ++ "@tcp(" ++
      c.Database.Host ++ ":" ++ toString c.Database.Port ++ ")/" ++
      c.Database.Database ++ "?parseTime=true"
  | _ => ""

/-! ## HTTP responses of the probe endpoint handlers -/

/-- What a handler writes: the Content-Type header, the status code passed to
`WriteHeader`, and the body bytes passed to `Write`. -/
structure HttpResponse where
  contentType : String
  statusCode : Nat
  body : String
  deriving Repr, DecidableEq

/-- Embeds `App.healthzHandler`. Its single input from the environment is the
boolean `healthy` returned by `a.health.Results()`; the `results` map only
feeds a debug log, so it is not part of the response. The handler is a total
function: it writes a response on every input. -/
def healthzHandler (healthy : Bool) : HttpResponse :=
  if !healthy then
    { contentType := "application/json"
      statusCode := 503
      body := "\x7b\"status\": \"unhealthy\"\x7d" }
  else
    { contentType := "application/json"
      statusCode := 200
      body := "\x7b\"status\": \"healthy\"\x7d" }

/-- Environment of one `App.readinessHandler` execution: whether `a.db` and
`a.redis` are non-nil, and the outcome of the `Ping(ctx)` call on each. -/
structure ReadinessEnv where
  dbPresent : Bool
  dbPingOk : Bool
  redisPresent : Bool
  redisPingOk : Bool
  deriving Repr, DecidableEq

/-- The `checks` map built by `App.readinessHandler`, in insertion order. -/
def readinessChecks (env : ReadinessEnv) : List (String × String) :=
  (if env.dbPresent then
    [("database", if env.dbPingOk then "healthy" else "unhealthy")] else []) ++
  (if env.redisPresent then
    [("redis", if env.redisPingOk then "healthy" else "unhealthy")] else [])

/-- The `ready` flag computed by `App.readinessHandler`: it starts true and is
cleared when a present collaborator fails its ping. -/
def readinessReady (env : ReadinessEnv) : Bool :=
  (!env.dbPresent || env.dbPingOk) && (!env.redisPresent || env.redisPingOk)

/-- Embeds `App.readinessHandler`. Note that the handler builds a `response`
map containing `ready` and the `checks` map but never encodes it: the body it
actually writes is the fixed string with only the `ready` field. -/
def readinessHandler (env : ReadinessEnv) : HttpResponse :=
  { contentType := "application/json"
    statusCode := if !readinessReady env then 503 else 200
    body := if readinessReady env then
        "\x7b\"ready\": true\x7d"
      else
        "\x7b\"ready\": false\x7d" }

/-- Embeds `App.livenessHandler`, which unconditionally writes 200. -/
def livenessHandler : HttpResponse :=
  { contentType := "application/json"
    statusCode := 200
    body := "\x7b\"alive\": true\x7d" }

/-! ## Health-check setup (App.setupHealthChecks) -/

/-- The error returned by `App.setupHealthChecks`, tagged by the failing
call site. -/
inductive HCError where
  | registerDb
  | registerRedis
  | newHTTPCheck (url : String)
  | registerHTTPCheck (url : String)
  deriving Repr, DecidableEq

/-- Environment of `App.setupHealthChecks`: the health section of the config
and the outcome of each call into the go-sundheit registry / check
constructors. -/
structure HealthEnv where
  cfg : HealthConfig
  registerDbOk : Bool
  registerRedisOk : Bool
  newHTTPCheckOk : String → Bool
  registerHTTPOk : String → Bool

/-- The external-URL loop at the end of `setupHealthChecks`: for each URL,
`checks.NewHTTPCheck` then `health.RegisterCheck`, returning the first
error. -/
def setupExternalChecks (env : HealthEnv) : List String → Option HCError
  | [] => none
  | url :: rest =>
    if !env.newHTTPCheckOk url then some (HCError.newHTTPCheck url)
    else if !env.registerHTTPOk url then some (HCError.registerHTTPCheck url)
    else setupExternalChecks env rest

/-- Embeds `App.setupHealthChecks`. `dbPresent` / `redisPresent` record
whether `a.db` / `a.redis` are non-nil. Each registration failure is
returned (wrapped) to the caller; nothing is logged here. -/
def setupHealthChecks (dbPresent redisPresent : Bool) (env : HealthEnv) :
    Option HCError :=
  if !env.cfg.Enabled then none
  else if env.cfg.DatabaseCheck && dbPresent && !env.registerDbOk then
    some HCError.registerDb
  else if env.cfg.RedisCheck && redisPresent && !env.registerRedisOk then
    some HCError.registerRedis
  else setupExternalChecks env env.cfg.ExternalChecks

/-! ## Startup (App.New then App.Run) -/

/-- The observable steps of startup, in the order the code can perform
them. -/
inductive StartupEvent where
  | loadConfig
  | initLogger
  | openDB
  | openRedis
  | newUpgrader
  | newHealth
  | setupRouter
  | setupServer
  | registerChecks
  | listen
  | serveStart
  | signalReady
  | shutdownCalled
  deriving Repr, DecidableEq

/-- The error `App.New` returns, tagged by the failing step. -/
inductive NewError where
  | loadConfig
  | logger
  | database
  | redis
  | upgrader
  | healthChecks (e : HCError)
  deriving Repr, DecidableEq

/-- Environment of `App.New`: the outcome of each fallible call it makes.
`setupRouter` and `setupServer` always return nil in the source, so they
have no failure flag. -/
structure NewEnv where
  loadConfigOk : Bool
  loggerOk : Bool
  dbOk : Bool
  redisOk : Bool
  upgraderOk : Bool
  health : HealthEnv

/-- Embeds `App.New`: each step runs in source order, appends its event on
success, and aborts with a wrapped error on failure. After `database.New`
and `redis.New` succeed, `a.db` and `a.redis` are non-nil, so
`setupHealthChecks` runs with both collaborators present. -/
def newRun (env : NewEnv) : Option NewError × List StartupEvent :=
  if !env.loadConfigOk then (some NewError.loadConfig, []) else
  let t1 := [StartupEvent.loadConfig]
  if !env.loggerOk then (some NewError.logger, t1) else
  let t2 := t1 ++ [StartupEvent.initLogger]
  if !env.dbOk then (some NewError.database, t2) else
  let t3 := t2 ++ [StartupEvent.openDB]
  if !env.redisOk then (some NewError.redis, t3) else
  let t4 := t3 ++ [StartupEvent.openRedis]
  if !env.upgraderOk then (some NewError.upgrader, t4) else
  let t5 := t4 ++ [StartupEvent.newUpgrader, StartupEvent.newHealth,
                   StartupEvent.setupRouter, StartupEvent.setupServer]
  match setupHealthChecks true true env.health with
  | some e => (some (NewError.healthChecks e), t5)
  | none => (none, t5 ++ [StartupEvent.registerChecks])

/-- The error `App.Run` returns, tagged by the failing step. -/
inductive RunError where
  | listen
  | ready
  | server
  deriving Repr, DecidableEq

/-- How the `select` in `App.Run` is released: the serving goroutine returned
an error other than `http.ErrServerClosed`, or it returned
`http.ErrServerClosed`, or a termination signal arrived, or the exit channel
of the upgrader fired. -/
inductive ExitReason where
  | serverErrOther
  | serverClosed
  | signal
  | upgrade
  deriving Repr, DecidableEq

/-- Environment of `App.Run`: outcome of `upgrader.Listen`, outcome of
`upgrader.Ready`, and how the wait ends. -/
structure RunEnv where
  listenOk : Bool
  readyOk : Bool
  exitReason : ExitReason
  deriving Repr, DecidableEq

/-- Embeds `App.Run`: listen on the upgradeable socket (aborting on error
before anything else), start the serving goroutine, signal readiness via
`upgrader.Ready` (aborting on error), wait, and either return a server error
or fall through to `a.Shutdown()` (which returns nil). -/
def runRun (env : RunEnv) : Option RunError × List StartupEvent :=
  if !env.listenOk then (some RunError.listen, []) else
  let t1 := [StartupEvent.listen, StartupEvent.serveStart]
  if !env.readyOk then (some RunError.ready, t1) else
  let t2 := t1 ++ [StartupEvent.signalReady]
  match env.exitReason with
  | ExitReason.serverErrOther => (some RunError.server, t2)
  | _ => (none, t2 ++ [StartupEvent.shutdownCalled])

/-- The whole startup sequence as run by `main`: `app.New()` followed by
`application.Run()` (Run only happens when New succeeded; callers of this
trace supply that hypothesis). -/
def startupTrace (envN : NewEnv) (envR : RunEnv) : List StartupEvent :=
  (newRun envN).2 ++ (runRun envR).2

/-! ## Shutdown (App.Shutdown) -/

/-- The teardown steps of `App.Shutdown`, in source order. -/
inductive ShutdownStep where
  | serverDrain
  | deregisterAll
  | dbClose
  | redisClose
  | upgraderStop
  deriving Repr, DecidableEq

/-- Environment of one `App.Shutdown` execution. Times are durations (in any
fixed unit); `none` means that call never returns. `timeout` is
`a.config.App.Shutdown.Timeout`, the deadline of the context passed to
`a.server.Shutdown` — and to no other step. The `Present` flags record the
nil checks the code performs before each guarded step. -/
structure ShutdownEnv where
  timeout : Nat
  drainTime : Option Nat
  drainErr : Bool
  healthPresent : Bool
  deregTime : Option Nat
  dbPresent : Bool
  dbCloseTime : Option Nat
  dbCloseErr : Bool
  redisPresent : Bool
  redisCloseTime : Option Nat
  redisCloseErr : Bool
  upgraderPresent : Bool
  stopTime : Option Nat
  deriving Repr, DecidableEq

/-- Time spent in `a.server.Shutdown(ctx)`: `http.Server.Shutdown` returns
when draining completes or when the context deadline passes, whichever is
first, so this step alone is capped by the timeout. -/
def drainElapsed (env : ShutdownEnv) : Nat :=
  match env.drainTime with
  | none => env.timeout
  | some t => min t env.timeout

/-- Time spent in a guarded teardown step: zero when the nil check skips it,
otherwise the full duration of the step — no deadline is applied. -/
def stepTime (present : Bool) (t : Option Nat) : Option Nat :=
  if present then t else some 0

/-- Total wall-clock duration of `App.Shutdown`: the (capped) drain plus the
uncapped durations of `DeregisterAll`, `db.Close`, `redis.Close` and
`upgrader.Stop`; `none` when one of the uncapped steps never returns. -/
def shutdownElapsed (env : ShutdownEnv) : Option Nat :=
  match stepTime env.healthPresent env.deregTime,
        stepTime env.dbPresent env.dbCloseTime,
        stepTime env.redisPresent env.redisCloseTime,
        stepTime env.upgraderPresent env.stopTime with
  | some t1, some t2, some t3, some t4 =>
      some (drainElapsed env + t1 + t2 + t3 + t4)
  | _, _, _, _ => none

/-- What one `App.Shutdown` execution does: the steps it performed in order,
the error log lines it emitted, its duration, and its return value. -/
structure ShutdownOutcome where
  steps : List ShutdownStep
  logs : List String
  elapsed : Option Nat
  result : Option String
  deriving Repr, DecidableEq

/-- Embeds `App.Shutdown`: drain the HTTP server under the timeout context,
then `DeregisterAll`, then close the database, then close Redis, then stop
the upgrader — each guarded step only when its field is non-nil, each error
only logged, and `return nil` at the end. -/
def appShutdown (env : ShutdownEnv) : ShutdownOutcome :=
  let steps :=
    [ShutdownStep.serverDrain]
    ++ (if env.healthPresent then [ShutdownStep.deregisterAll] else [])
    ++ (if env.dbPresent then [ShutdownStep.dbClose] else [])
    ++ (if env.redisPresent then [ShutdownStep.redisClose] else [])
    ++ (if env.upgraderPresent then [ShutdownStep.upgraderStop] else [])
  let logs :=
    ["Shutting down application..."]
    ++ (if env.drainErr then ["Server shutdown error"] else [])
    ++ (if env.dbPresent && env.dbCloseErr then ["Database close error"] else [])
    ++ (if env.redisPresent && env.redisCloseErr then ["Redis close error"] else [])
    ++ ["Application shutdown complete"]
  { steps := steps
    logs := logs
    elapsed := shutdownElapsed env
    result := none }

/-! ## NewServer (internal/app/server.go) -/

/-- The error `NewServer` returns, tagged by the failing validation or setup
step. `setupServerTLS` is the only error `setupServer` can produce: it
happens when TLS is enabled and `tls.LoadX509KeyPair` fails. -/
inductive NewServerError where
  | configRequired
  | loggerRequired
  | handlerRequired
  | upgraderRequired
  | setupServerTLS
  deriving Repr, DecidableEq

/-- Environment of `NewServer`: which of the four `ServerOptions` fields are
non-nil, whether TLS is enabled in the config, and whether loading the key
pair succeeds. -/
structure ServerOptionsEnv where
  configPresent : Bool
  loggerPresent : Bool
  handlerPresent : Bool
  upgraderPresent : Bool
  tlsEnabled : Bool
  tlsLoadOk : Bool
  deriving Repr, DecidableEq

/-- Embeds `NewServer`: four nil checks in source order, then `setupServer`,
which fails only in its TLS branch. `Except.ok` stands for the non-nil
`*Server` return; every `Except.error` goes with a nil `*Server` in the
source. -/
def newServer (opts : ServerOptionsEnv) : Except NewServerError Unit :=
  if !opts.configPresent then Except.error NewServerError.configRequired
  else if !opts.loggerPresent then Except.error NewServerError.loggerRequired
  else if !opts.handlerPresent then Except.error NewServerError.handlerRequired
  else if !opts.upgraderPresent then Except.error NewServerError.upgraderRequired
  else if opts.tlsEnabled && !opts.tlsLoadOk then
    Except.error NewServerError.setupServerTLS
  else Except.ok ()

/-- The error component of `NewServer`, as an `Option`: `some e` when the
constructor returns `(nil, e)`, `none` when it returns a server. -/
def newServerErrOf (opts : ServerOptionsEnv) : Option NewServerError :=
  match newServer opts with
  | Except.ok _ => none
  | Except.error e => some e

/-! ## Concrete environments used as witnesses and counterexamples -/

/-- A config with an unrecognized database driver. -/
def sqliteConfig : Config :=
  { Database :=
      { Driver := "sqlite", Host := "localhost", Port := 5432
        Database := "medical_rep", Username := "postgres", Password := "password"
        SSLMode := "disable", MaxOpenConns := 25, MaxIdleConns := 5
        ConnMaxLifetime := 300, MigrationsPath := "migrations" }
    Health :=
      { Enabled := true, CheckInterval := 30, Timeout := 5
        DatabaseCheck := true, RedisCheck := true, ExternalChecks := [] } }

/-- A readiness environment where both collaborators are present and both
pings succeed. -/
def readyEnvAllHealthy : ReadinessEnv :=
  { dbPresent := true, dbPingOk := true, redisPresent := true, redisPingOk := true }

/-- A readiness environment where the database ping fails. -/
def readyEnvDbDown : ReadinessEnv :=
  { dbPresent := true, dbPingOk := false, redisPresent := true, redisPingOk := true }

/-- A health-check environment where every registry call succeeds. -/
def allOkHealthEnv : HealthEnv :=
  { cfg := sqliteConfig.Health
    registerDbOk := true, registerRedisOk := true
    newHTTPCheckOk := fun _ => true, registerHTTPOk := fun _ => true }

/-- A `New` environment where every step succeeds. -/
def allOkNewEnv : NewEnv :=
  { loadConfigOk := true, loggerOk := true, dbOk := true, redisOk := true
    upgraderOk := true, health := allOkHealthEnv }

/-- A `Run` environment where listen and ready succeed and a termination
signal eventually arrives. -/
def allOkRunEnv : RunEnv :=
  { listenOk := true, readyOk := true, exitReason := ExitReason.signal }

/-- A `Run` environment where `upgrader.Listen` fails. -/
def listenFailRunEnv : RunEnv :=
  { listenOk := false, readyOk := true, exitReason := ExitReason.signal }

/-- A health-check environment where registering the database check fails. -/
def failingRegisterHealthEnv : HealthEnv :=
  { cfg := sqliteConfig.Health
    registerDbOk := false, registerRedisOk := true
    newHTTPCheckOk := fun _ => true, registerHTTPOk := fun _ => true }

/-- A `New` environment where everything succeeds except registering the
database health check. -/
def failingRegisterNewEnv : NewEnv :=
  { loadConfigOk := true, loggerOk := true, dbOk := true, redisOk := true
    upgraderOk := true, health := failingRegisterHealthEnv }

/-- A shutdown environment in which `db.Close()` blocks forever while every
other step is instantaneous and the timeout is 30 units. -/
def shutdownEnvBlockingDb : ShutdownEnv :=
  { timeout := 30, drainTime := some 0, drainErr := false
    healthPresent := true, deregTime := some 0
    dbPresent := true, dbCloseTime := none, dbCloseErr := false
    redisPresent := true, redisCloseTime := some 0, redisCloseErr := false
    upgraderPresent := true, stopTime := some 0 }

/-- A shutdown environment where every component is present and every
fallible step reports an error. -/
def shutdownEnvAllErr : ShutdownEnv :=
  { timeout := 30, drainTime := some 50, drainErr := true
    healthPresent := true, deregTime := some 1
    dbPresent := true, dbCloseTime := some 2, dbCloseErr := true
    redisPresent := true, redisCloseTime := some 3, redisCloseErr := true
    upgraderPresent := true, stopTime := some 4 }

/-- Server options with a nil Logger. -/
def optsNoLogger : ServerOptionsEnv :=
  { configPresent := true, loggerPresent := false, handlerPresent := true
    upgraderPresent := true, tlsEnabled := false, tlsLoadOk := true }

/-- Server options with all four fields non-nil, TLS enabled, and the key
pair failing to load. -/
def optsTlsFail : ServerOptionsEnv :=
  { configPresent := true, loggerPresent := true, handlerPresent := true
    upgraderPresent := true, tlsEnabled := true, tlsLoadOk := false }

/-! ## Helper lemmas -/

/-- When `App.New` succeeds, its event sequence is fully determined: config,
logger, database, Redis, upgrader, health, router, server, checks. -/
lemma newRun_success (env : NewEnv) (h : (newRun env).1 = none) :
    (newRun env).2 =
      [StartupEvent.loadConfig, StartupEvent.initLogger, StartupEvent.openDB,
       StartupEvent.openRedis, StartupEvent.newUpgrader, StartupEvent.newHealth,
       StartupEvent.setupRouter, StartupEvent.setupServer,
       StartupEvent.registerChecks] := by
  rcases env with ⟨b1, b2, b3, b4, b5, he⟩
  cases b1 <;> cases b2 <;> cases b3 <;> cases b4 <;> cases b5 <;>
    cases hsc : setupHealthChecks true true he <;>
    simp [newRun, hsc] at h ⊢

/-! ## Claims -/

/-- Claim C10: for every `Config` whose `Database.Driver` is neither
"postgres" nor "mysql", `GetConnectionString` falls through to the default
case and returns the empty string rather than an error. -/
theorem C10_connection_string_default (c : Config)
    (h1 : c.Database.Driver ≠ "postgres") (h2 : c.Database.Driver ≠ "mysql") :
    Config.GetConnectionString c = "" := by
  unfold Config.GetConnectionString
  split <;> simp_all

/-- Claim C10 witness: the "sqlite" driver is neither recognized case and
yields the empty connection string. -/
theorem C10_witness :
    sqliteConfig.Database.Driver ≠ "postgres" ∧
    sqliteConfig.Database.Driver ≠ "mysql" ∧
    Config.GetConnectionString sqliteConfig = "" :=
  ⟨by decide, by decide,
   C10_connection_string_default sqliteConfig (by decide) (by decide)⟩

/-- Claim C4: for every aggregate verdict returned by `health.Results()`,
`healthzHandler` produces an HTTP response (it is a total function): 200
with body containing status healthy when the verdict is healthy, and 503
with body containing status unhealthy otherwise. -/
theorem C4_healthz_response (healthy : Bool) :
    healthzHandler healthy =
      (if healthy then
        { contentType := "application/json", statusCode := 200
          body := "\x7b\"status\": \"healthy\"\x7d" }
      else
        { contentType := "application/json", statusCode := 503
          body := "\x7b\"status\": \"unhealthy\"\x7d" } : HttpResponse) := by
  cases healthy <;> rfl

/-- Claim C4 witness: both verdicts evaluated concretely. -/
theorem C4_healthz_witness :
    healthzHandler true =
      ({ contentType := "application/json", statusCode := 200
         body := "\x7b\"status\": \"healthy\"\x7d" } : HttpResponse) ∧
    healthzHandler false =
      ({ contentType := "application/json", statusCode := 503
         body := "\x7b\"status\": \"unhealthy\"\x7d" } : HttpResponse) :=
  ⟨C4_healthz_response true, C4_healthz_response false⟩

/-- Claim C3 (code-bug evidence): at the failing input where both critical
collaborators are present and healthy, the handler returns 200 but its body
is exactly the fixed string with only the ready field — the per-check map
(which the handler does compute) is absent from the body; likewise the 503
body at an input where the database ping fails. -/
theorem C3_readiness_body_missing_checks :
    (readinessHandler readyEnvAllHealthy).statusCode = 200 ∧
    (readinessHandler readyEnvAllHealthy).body = "\x7b\"ready\": true\x7d" ∧
    readinessChecks readyEnvAllHealthy =
      [("database", "healthy"), ("redis", "healthy")] ∧
    (readinessHandler readyEnvDbDown).statusCode = 503 ∧
    (readinessHandler readyEnvDbDown).body = "\x7b\"ready\": false\x7d" ∧
    readinessChecks readyEnvDbDown =
      [("database", "unhealthy"), ("redis", "healthy")] :=
  ⟨rfl, rfl, rfl, rfl, rfl, rfl⟩

/-- Claim C9: `App.Shutdown` returns nil for every state of the application
and every combination of step failures; no step error reaches the caller. -/
theorem C9_shutdown_returns_nil (env : ShutdownEnv) :
    (appShutdown env).result = none := rfl

/-- Claim C6: for every shutdown of an application whose health registry,
database, Redis client and upgrader are all set (as they are after a
successful `App.New`), the teardown steps run in the strict order server
drain, `DeregisterAll`, database close, Redis close, upgrader stop — for
every combination of step errors, so no error prevents a later step. -/
theorem C6_shutdown_order (env : ShutdownEnv)
    (hh : env.healthPresent = true) (hd : env.dbPresent = true)
    (hr : env.redisPresent = true) (hu : env.upgraderPresent = true) :
    (appShutdown env).steps =
      [ShutdownStep.serverDrain, ShutdownStep.deregisterAll,
       ShutdownStep.dbClose, ShutdownStep.redisClose,
       ShutdownStep.upgraderStop] := by
  simp [appShutdown, hh, hd, hr, hu]

/-- Claim C6 witness: all five steps run, in order, even when the drain, the
database close and the Redis close all report errors. -/
theorem C6_shutdown_order_witness :
    shutdownEnvAllErr.healthPresent = true ∧
    shutdownEnvAllErr.dbPresent = true ∧
    shutdownEnvAllErr.redisPresent = true ∧
    shutdownEnvAllErr.upgraderPresent = true ∧
    (appShutdown shutdownEnvAllErr).steps =
      [ShutdownStep.serverDrain, ShutdownStep.deregisterAll,
       ShutdownStep.dbClose, ShutdownStep.redisClose,
       ShutdownStep.upgraderStop] :=
  ⟨rfl, rfl, rfl, rfl, C6_shutdown_order shutdownEnvAllErr rfl rfl rfl rfl⟩

/-- Claim C1 counterexample: in the concrete shutdown environment where the
database `Close()` blocks forever (timeout 30, every other step
instantaneous), `App.Shutdown` never terminates — there is no finishing
time at all, let alone one within the deadline. The timeout context is
passed only to the server drain, not to the close calls. -/
theorem C1_counterexample :
    (appShutdown shutdownEnvBlockingDb).elapsed = none ∧
    ¬ ∃ t, (appShutdown shutdownEnvBlockingDb).elapsed = some t ∧
      t ≤ shutdownEnvBlockingDb.timeout := by
  refine ⟨rfl, ?_⟩
  rintro ⟨t, ht, -⟩
  exact Option.noConfusion ht

/-- Claim C1 (amended): only the HTTP server drain is bounded by the
configured shutdown timeout; `DeregisterAll`, the database close, the Redis
close and the upgrader stop receive no deadline, so `Shutdown` fails to
terminate exactly when one of those steps never returns. -/
theorem C1_amended_only_drain_bounded (env : ShutdownEnv) :
    drainElapsed env ≤ env.timeout ∧
    ((appShutdown env).elapsed = none ↔
      stepTime env.healthPresent env.deregTime = none ∨
      stepTime env.dbPresent env.dbCloseTime = none ∨
      stepTime env.redisPresent env.redisCloseTime = none ∨
      stepTime env.upgraderPresent env.stopTime = none) := by
  constructor
  · unfold drainElapsed
    cases env.drainTime with
    | none => exact le_refl _
    | some t => exact Nat.min_le_right _ _
  · show shutdownElapsed env = none ↔ _
    unfold shutdownElapsed
    rcases stepTime env.healthPresent env.deregTime with _ | t1 <;>
      rcases stepTime env.dbPresent env.dbCloseTime with _ | t2 <;>
      rcases stepTime env.redisPresent env.redisCloseTime with _ | t3 <;>
      rcases stepTime env.upgraderPresent env.stopTime with _ | t4 <;>
      simp

/-- Claim C1 amended witness: the amended statement evaluated at the
environment whose database close blocks forever. -/
theorem C1_amended_witness :
    drainElapsed shutdownEnvBlockingDb ≤ shutdownEnvBlockingDb.timeout ∧
    ((appShutdown shutdownEnvBlockingDb).elapsed = none ↔
      stepTime shutdownEnvBlockingDb.healthPresent
        shutdownEnvBlockingDb.deregTime = none ∨
      stepTime shutdownEnvBlockingDb.dbPresent
        shutdownEnvBlockingDb.dbCloseTime = none ∨
      stepTime shutdownEnvBlockingDb.redisPresent
        shutdownEnvBlockingDb.redisCloseTime = none ∨
      stepTime shutdownEnvBlockingDb.upgraderPresent
        shutdownEnvBlockingDb.stopTime = none) :=
  C1_amended_only_drain_bounded shutdownEnvBlockingDb

/-- Claim C2 counterexample: in a fully successful startup, the database is
opened and the health checks are registered strictly before the listener is
acquired, contradicting the claimed order in which the listener comes
first. -/
theorem C2_counterexample :
    (newRun allOkNewEnv).1 = none ∧
    StartupEvent.openDB ∈ startupTrace allOkNewEnv allOkRunEnv ∧
    StartupEvent.listen ∈ startupTrace allOkNewEnv allOkRunEnv ∧
    (startupTrace allOkNewEnv allOkRunEnv).indexOf StartupEvent.openDB <
      (startupTrace allOkNewEnv allOkRunEnv).indexOf StartupEvent.listen ∧
    (startupTrace allOkNewEnv allOkRunEnv).indexOf StartupEvent.registerChecks <
      (startupTrace allOkNewEnv allOkRunEnv).indexOf StartupEvent.listen := by
  refine ⟨rfl, ?_, ?_, ?_, ?_⟩ <;> decide

/-- Claim C2 (amended): every successful startup performs, in order, inside
`App.New`: load config, init logger, open the database, open Redis, create
the upgrader and the health registry, set up router and server, register
the health checks; and only then, inside `App.Run`: acquire the listener,
start serving, signal readiness. The collaborators are opened and the
checks registered before the listener is acquired. -/
theorem C2_amended_startup_order (envN : NewEnv) (envR : RunEnv)
    (hN : (newRun envN).1 = none)
    (hL : envR.listenOk = true) (hR : envR.readyOk = true) :
    startupTrace envN envR =
      [StartupEvent.loadConfig, StartupEvent.initLogger, StartupEvent.openDB,
       StartupEvent.openRedis, StartupEvent.newUpgrader, StartupEvent.newHealth,
       StartupEvent.setupRouter, StartupEvent.setupServer,
       StartupEvent.registerChecks, StartupEvent.listen,
       StartupEvent.serveStart, StartupEvent.signalReady] ++
      (match envR.exitReason with
       | ExitReason.serverErrOther => []
       | _ => [StartupEvent.shutdownCalled]) := by
  unfold startupTrace
  rw [newRun_success envN hN]
  rcases envR with ⟨l, r, ex⟩
  simp only at hL hR
  subst hL; subst hR
  cases ex <;> rfl

/-- Claim C2 amended witness: the fully successful startup environment
evaluated concretely. -/
theorem C2_amended_witness :
    (newRun allOkNewEnv).1 = none ∧
    allOkRunEnv.listenOk = true ∧ allOkRunEnv.readyOk = true ∧
    startupTrace allOkNewEnv allOkRunEnv =
      [StartupEvent.loadConfig, StartupEvent.initLogger, StartupEvent.openDB,
       StartupEvent.openRedis, StartupEvent.newUpgrader, StartupEvent.newHealth,
       StartupEvent.setupRouter, StartupEvent.setupServer,
       StartupEvent.registerChecks, StartupEvent.listen,
       StartupEvent.serveStart, StartupEvent.signalReady,
       StartupEvent.shutdownCalled] :=
  ⟨rfl, rfl, rfl, C2_amended_startup_order allOkNewEnv allOkRunEnv rfl rfl rfl⟩

/-- Claim C5 counterexample: when registering the database health check
fails, `setupHealthChecks` returns the wrapped error and `App.New` returns
it too — startup aborts instead of logging and succeeding. -/
theorem C5_counterexample :
    setupHealthChecks true true failingRegisterHealthEnv =
      some HCError.registerDb ∧
    (newRun failingRegisterNewEnv).1 =
      some (NewError.healthChecks HCError.registerDb) ∧
    (newRun failingRegisterNewEnv).1 ≠ none :=
  ⟨rfl, rfl, fun h => Option.noConfusion h⟩

/-- Claim C5 (amended): in every startup in which the earlier steps succeed
but a health-check registration fails, `setupHealthChecks` returns an error
and `App.New` fails with that error wrapped — the failure is fatal, not
merely logged. -/
theorem C5_amended_registration_fatal (env : NewEnv) (e : HCError)
    (h1 : env.loadConfigOk = true) (h2 : env.loggerOk = true)
    (h3 : env.dbOk = true) (h4 : env.redisOk = true)
    (h5 : env.upgraderOk = true)
    (hreg : setupHealthChecks true true env.health = some e) :
    (newRun env).1 = some (NewError.healthChecks e) := by
  simp [newRun, h1, h2, h3, h4, h5, hreg]

/-- Claim C5 amended witness: the environment with a failing database-check
registration evaluated concretely. -/
theorem C5_amended_witness :
    failingRegisterNewEnv.loadConfigOk = true ∧
    failingRegisterNewEnv.loggerOk = true ∧
    failingRegisterNewEnv.dbOk = true ∧
    failingRegisterNewEnv.redisOk = true ∧
    failingRegisterNewEnv.upgraderOk = true ∧
    setupHealthChecks true true failingRegisterNewEnv.health =
      some HCError.registerDb ∧
    (newRun failingRegisterNewEnv).1 =
      some (NewError.healthChecks HCError.registerDb) :=
  ⟨rfl, rfl, rfl, rfl, rfl, rfl,
   C5_amended_registration_fatal failingRegisterNewEnv HCError.registerDb
     rfl rfl rfl rfl rfl rfl⟩

/-- Claim C7: for every `App.Run` execution in which `upgrader.Listen`
fails, `Run` returns the listen error, and nothing else happens: the event
sequence is empty, so in particular `upgrader.Ready` is never called and no
partial Ready state is ever observed. -/
theorem C7_listen_failure_no_ready (env : RunEnv)
    (h : env.listenOk = false) :
    (runRun env).1 = some RunError.listen ∧
    StartupEvent.signalReady ∉ (runRun env).2 ∧
    (runRun env).2 = [] := by
  simp [runRun, h]

/-- Claim C7 witness: the listen-failure environment evaluated concretely. -/
theorem C7_witness :
    listenFailRunEnv.listenOk = false ∧
    (runRun listenFailRunEnv).1 = some RunError.listen ∧
    StartupEvent.signalReady ∉ (runRun listenFailRunEnv).2 ∧
    (runRun listenFailRunEnv).2 = [] :=
  ⟨rfl, (C7_listen_failure_no_ready listenFailRunEnv rfl).1,
   (C7_listen_failure_no_ready listenFailRunEnv rfl).2.1,
   (C7_listen_failure_no_ready listenFailRunEnv rfl).2.2⟩

/-- Claim C8: whenever one of the four `ServerOptions` fields is nil,
`NewServer` returns an error (with a nil server); when all four are
non-nil, it either succeeds or fails with the TLS setup error from
`setupServer` — no other error is possible. -/
theorem C8_newServer_validation (opts : ServerOptionsEnv) :
    ((opts.configPresent && opts.loggerPresent && opts.handlerPresent &&
        opts.upgraderPresent) = false → newServerErrOf opts ≠ none) ∧
    ((opts.configPresent && opts.loggerPresent && opts.handlerPresent &&
        opts.upgraderPresent) = true →
      newServerErrOf opts = none ∨
      newServerErrOf opts = some NewServerError.setupServerTLS) := by
  rcases opts with ⟨c, l, h, u, te, tl⟩
  cases c <;> cases l <;> cases h <;> cases u <;> cases te <;> cases tl <;>
    exact ⟨fun hne => by simp_all [newServerErrOf, newServer],
           fun hall => by simp_all [newServerErrOf, newServer]⟩

/-- Claim C8 witness: a nil logger produces an error, and with all fields
set but a bad TLS key pair the only error is the TLS setup error. -/
theorem C8_witness :
    newServerErrOf optsNoLogger ≠ none ∧
    (newServerErrOf optsTlsFail = none ∨
     newServerErrOf optsTlsFail = some NewServerError.setupServerTLS) :=
  ⟨(C8_newServer_validation optsNoLogger).1 rfl,
   (C8_newServer_validation optsTlsFail).2 rfl⟩

end MedicalRep
